import Mathlib

/-!
Verification of the GoWSL distro-management library against its design
specification.

The development shallowly embeds the Go source:

* the native multi-string environment-block decoder
  (`strnlen`, `stringCtoGo`, `processEnvVariables`);
* the configuration flag codec (`Configuration.packFlags`,
  `Configuration.unpackFlags`) and the single-field configuration setters;
* the command/process lifecycle (`Cmd.Start`, `Cmd.Wait`, `Cmd.Run`,
  `Cmd.Close`, the cached-status query of the windows exec file, and
  `Distro.Shell`).

Machine bytes are modelled as `Nat` (a Go `byte` value, 0..255); a native
string buffer is a function `Nat → Nat` giving the byte at each offset.
A Go runtime panic is modelled by the `none` / `panicked` constructor of
the result type of the function in which it occurs.  Native syscalls are
modelled by explicit oracle records describing what the native layer
returns, and each embedded function also returns the list of native calls
it issued, so that claims about calls never being made are statable.
-/

namespace GoWSL

/-! ## Native string decoding

Embedding of `strnlen`, `stringCtoGo`, `strings.Index` and
`processEnvVariables` from the distro / windows-API source files.
-/

/-- Byte memory of a null-terminated native string holding the bytes of `l`:
offset `i` holds `l[i]` for `i < l.length` and `0` (the terminator) beyond. -/
def memOf (l : List Nat) : Nat → Nat := fun i => l.getD i 0

/-- The loop of Go's `strnlen`:
`for ; *ptr != 0 && length <= maxlen; ptr = charNext(ptr) { length++ }`.
`pos` is the offset of `ptr`; `pos` and `length` advance together.
The last argument is fuel: the loop body runs at most `maxlen + 1` times
(each iteration requires `length ≤ maxlen` and increments `length`), so
fuel `maxlen + 2` is never exhausted and the fuel translation computes
exactly the Go loop. -/
def strnlenAux (mem : Nat → Nat) : Nat → Nat → Nat → Nat → Nat
  | _, length, _, 0 => length
  | pos, length, maxlen, fuel + 1 =>
    if mem pos ≠ 0 ∧ length ≤ maxlen then
      strnlenAux mem (pos + 1) (length + 1) maxlen fuel
    else
      length

/-- Go `strnlen(ptr *char, maxlen uint64) uint64`: scans for the null
terminator, starting at offset 0 with `length = 0`. -/
def strnlen (mem : Nat → Nat) (maxlen : Nat) : Nat :=
  strnlenAux mem 0 0 maxlen (maxlen + 2)

/-- Go `stringCtoGo(cString *char, maxlen uint64) string`:
`size := strnlen(cString, maxlen); return string(unsafe.Slice(cString, size))`,
i.e. the first `size` bytes of the buffer. -/
def stringCtoGo (mem : Nat → Nat) (maxlen : Nat) : List Nat :=
  (List.range (strnlen mem maxlen)).map mem

/-- Go `strings.Index(goStr, "=")` specialised to the byte `'='` (61):
the index of the first occurrence, `none` standing for Go's `-1`. -/
def strIndex : List Nat → Option Nat
  | [] => none
  | b :: rest => if b = 61 then some 0 else (strIndex rest).map (· + 1)

/-- The per-entry work of a `processEnvVariables` goroutine:
`goStr := stringCtoGo(cStr, 32768); idx := strings.Index(goStr, "=");`
then `goStr[:idx]` and `goStr[idx+1:]`.  When `idx = -1` (no `=` in the
entry) Go's slice expression `goStr[:idx]` panics with a slice-bounds
error; that panic is the `none` result. -/
def decodeEntry (mem : Nat → Nat) : Option (List Nat × List Nat) :=
  let goStr := stringCtoGo mem 32768
  match strIndex goStr with
  | none => none
  | some idx => some (goStr.take idx, goStr.drop (idx + 1))

/-- A Go `map[string]string` over byte strings, modelled as an association
list in insertion order. -/
abbrev EnvMap := List (List Nat × List Nat)

/-- Go map assignment `m[k] = v`: replaces the value when the key is
present, otherwise appends the new binding. -/
def mapUpsert (m : EnvMap) (k v : List Nat) : EnvMap :=
  if m.any (fun kv => kv.1 = k) then
    m.map (fun kv => if kv.1 = k then (k, v) else kv)
  else
    m ++ [(k, v)]

/-- Go map lookup `m[k]`. -/
def mapLookup (m : EnvMap) (k : List Nat) : Option (List Nat) :=
  (m.find? (fun kv => kv.1 = k)).map (fun kv => kv.2)

/-- The fan-out / fan-in of `processEnvVariables`: every entry is decoded
(in the source, by a goroutine per entry) and the key/value pairs are
collected into one map.  The collection order of the channel fan-in is
scheduler-dependent in the source; the embedding fixes the array order,
which is one admissible schedule (and the map contents are
order-independent when keys are distinct).  If any goroutine panics
(malformed entry), the whole program crashes: result `none`. -/
def processEnvGo : List (Nat → Nat) → EnvMap → Option EnvMap
  | [], m => some m
  | mem :: rest, m =>
    match decodeEntry mem with
    | none => none
    | some kv => processEnvGo rest (mapUpsert m kv.1 kv.2)

/-- Go `processEnvVariables(cStringArray **char, len uint64) map[string]string`,
taking the array of `len` native string buffers. -/
def processEnvVariables (mems : List (Nat → Nat)) : Option EnvMap :=
  processEnvGo mems []

/-! ## Configuration and the flag codec (distro.go) -/

/-- Windows' `WSL_DISTRIBUTION_FLAGS` bit constants. -/
def flag_NONE : Nat := 0x0

def flag_ENABLE_INTEROP : Nat := 0x1

def flag_APPEND_NT_PATH : Nat := 0x2

def flag_ENABLE_DRIVE_MOUNTING : Nat := 0x4

def flag_undocumented_WSL_VERSION : Nat := 0x8

/-- Go `type Configuration struct` from distro.go. -/
structure Configuration where
  Version : Nat
  DefaultUID : Nat
  InteropEnabled : Bool
  PathAppended : Bool
  DriveMountingEnabled : Bool
  undocumentedWSLVersion : Nat
  DefaultEnvironmentVariables : EnvMap
  deriving DecidableEq, Repr

/-- Go's zero value for `Configuration` (`var conf Configuration`). -/
def zeroConfiguration : Configuration :=
  { Version := 0
    DefaultUID := 0
    InteropEnabled := false
    PathAppended := false
    DriveMountingEnabled := false
    undocumentedWSLVersion := 0
    DefaultEnvironmentVariables := [] }

/-- Go `(conf *Configuration) unpackFlags(flags wslFlags)`: reads each bit
into the corresponding field of `conf`. -/
def Configuration.unpackFlags (conf : Configuration) (flags : Nat) : Configuration :=
  { conf with
    InteropEnabled := flags.land flag_ENABLE_INTEROP != 0
    PathAppended := flags.land flag_APPEND_NT_PATH != 0
    DriveMountingEnabled := flags.land flag_ENABLE_DRIVE_MOUNTING != 0
    undocumentedWSLVersion :=
      if flags.land flag_undocumented_WSL_VERSION != 0 then 2 else 1 }

/-- Go `(conf Configuration) packFlags() (wslFlags, error)`: ors the bit of
each set flag, then switches on the version discriminant (version 1 adds
nothing, version 2 ors the undocumented version bit, anything else is the
error `"unknown WSL version"`). -/
def Configuration.packFlags (conf : Configuration) : Except String Nat :=
  let flags := flag_NONE
  let flags := if conf.InteropEnabled then flags.lor flag_ENABLE_INTEROP else flags
  let flags := if conf.PathAppended then flags.lor flag_APPEND_NT_PATH else flags
  let flags :=
    if conf.DriveMountingEnabled then flags.lor flag_ENABLE_DRIVE_MOUNTING else flags
  match conf.undocumentedWSLVersion with
  | 1 => Except.ok flags
  | 2 => Except.ok (flags.lor flag_undocumented_WSL_VERSION)
  | _ => Except.error "unknown WSL version"

/-! ## Distro configuration operations (distro.go)

The native layer is modelled by an oracle record `DistroEnv` describing
what the syscalls return.  A Go runtime panic is the `panicked` result.
`configure` additionally reports the `(uid, flags)` argument pair it passed
to the native `WslConfigureDistribution` call (`none` when the call was
never issued), so that pass-through of unchanged fields is statable. -/

/-- Result of a Go function returning `(T, error)`, with a constructor for
a runtime panic escaping the function. -/
inductive Res (α : Type) where
  | panicked : Res α
  | error : String → Res α
  | ok : α → Res α
  deriving DecidableEq, Repr

/-- Go `type Distro struct { Name string }`. -/
structure Distro where
  Name : String
  deriving DecidableEq, Repr

/-- Oracle for the native calls made by the configuration operations:
whether the distro name converts to UTF16, what
`WslGetDistributionConfiguration` returns (`none` = nonzero status;
otherwise version, default UID, flags, and the environment block), and the
status of `WslConfigureDistribution`. -/
structure DistroEnv where
  nameUTF16ok : Bool
  getConfig : Option (Nat × Nat × Nat × List (Nat → Nat))
  configureR1 : Nat

/-- Go `(i Distro) GetConfiguration() (Configuration, error)`: converts the
name, issues the native call, unpacks the flags and decodes the environment
block (whose decode can panic). -/
def Distro.GetConfiguration (d : Distro) (env : DistroEnv) : Res Configuration :=
  if !env.nameUTF16ok then
    Res.error ("failed to convert '" ++ d.Name ++ "' to UTF16")
  else
    match env.getConfig with
    | none => Res.error "failed syscall to WslGetDistributionConfiguration"
    | some (version, uid, flags, envBlock) =>
      let conf := { zeroConfiguration with Version := version, DefaultUID := uid }
      let conf := conf.unpackFlags flags
      match processEnvVariables envBlock with
      | none => Res.panicked
      | some m => Res.ok { conf with DefaultEnvironmentVariables := m }

/-- Go `(i *Distro) configure(config Configuration) error`: converts the
name, packs the flags, and issues `WslConfigureDistribution(name, uid,
flags)`.  The second component records the `(uid, flags)` pair passed to
the native call. -/
def Distro.configure (d : Distro) (env : DistroEnv) (config : Configuration) :
    Res Unit × Option (Nat × Nat) :=
  if !env.nameUTF16ok then
    (Res.error ("failed to convert '" ++ d.Name ++ "' to UTF16"), none)
  else
    match config.packFlags with
    | Except.error e => (Res.error e, none)
    | Except.ok flags =>
      if env.configureR1 ≠ 0 then
        (Res.error "failed syscall to WslConfigureDistribution",
          some (config.DefaultUID, flags))
      else
        (Res.ok (), some (config.DefaultUID, flags))

/-- Go `(d *Distro) DefaultUID(uid uint32) error`: fetch, set one field,
push. -/
def Distro.DefaultUID (d : Distro) (env : DistroEnv) (uid : Nat) :
    Res Unit × Option (Nat × Nat) :=
  match d.GetConfiguration env with
  | Res.panicked => (Res.panicked, none)
  | Res.error e => (Res.error e, none)
  | Res.ok conf => d.configure env { conf with DefaultUID := uid }

/-- Go `(d *Distro) InteropEnabled(value bool) error`. -/
def Distro.InteropEnabled (d : Distro) (env : DistroEnv) (value : Bool) :
    Res Unit × Option (Nat × Nat) :=
  match d.GetConfiguration env with
  | Res.panicked => (Res.panicked, none)
  | Res.error e => (Res.error e, none)
  | Res.ok conf => d.configure env { conf with InteropEnabled := value }

/-- Go `(d *Distro) PathAppended(value bool) error`. -/
def Distro.PathAppended (d : Distro) (env : DistroEnv) (value : Bool) :
    Res Unit × Option (Nat × Nat) :=
  match d.GetConfiguration env with
  | Res.panicked => (Res.panicked, none)
  | Res.error e => (Res.error e, none)
  | Res.ok conf => d.configure env { conf with PathAppended := value }

/-- Go `(d *Distro) DriveMountingEnabled(value bool) error`. -/
def Distro.DriveMountingEnabled (d : Distro) (env : DistroEnv) (value : Bool) :
    Res Unit × Option (Nat × Nat) :=
  match d.GetConfiguration env with
  | Res.panicked => (Res.panicked, none)
  | Res.error e => (Res.error e, none)
  | Res.ok conf => d.configure env { conf with DriveMountingEnabled := value }

/-! ## Command lifecycle (the exec source file)

`Cmd` and its methods `Start`, `Wait`, `Run`, `Close`, `queryStatus`.
Every operation returns the list of native calls it issued so that claims
about calls never being made are statable.  `Wait` has a **value** receiver
in the source, so the caller's `Cmd` is returned unchanged by `Wait` (its
deferred `Close` acts on the method's copy); `Start` and `Close` have
pointer receivers and return the updated `Cmd`. -/

/-- Windows' constants from the exec source file. -/
def WindowsError : Nat := 4294967295

def ActiveProcess : Nat := 259

/-- A native call issued by the library, as recorded in traces. -/
inductive NativeCall where
  | launch : NativeCall
  | waitForSingleObject : NativeCall
  | getExitCodeProcess : NativeCall
  | closeHandle : Nat → NativeCall
  | launchInteractive : NativeCall
  deriving DecidableEq, Repr

/-- Errors surfaced by the lifecycle: either a generic `fmt.Errorf` error or
the distinguished `*ExitError{Code}`. -/
inductive WslError where
  | generic : String → WslError
  | exitError : Nat → WslError
  deriving DecidableEq, Repr

/-- Go `type Cmd struct` from the exec source file. -/
structure Cmd where
  Stdout : Nat
  Stdin : Nat
  Stderr : Nat
  UseCWD : Bool
  instanceName : String
  command : String
  handle : Nat
  deriving DecidableEq, Repr

/-- The native layer's handle table: the handle values currently open. -/
structure NState where
  openHandles : List Nat
  deriving DecidableEq, Repr

/-- Windows `CloseHandle`: succeeds and removes the handle when it is open,
errors otherwise (in particular `CloseHandle(0)` errors). -/
def closeHandleNative (s : NState) (h : Nat) : NState × Option String :=
  if h ∈ s.openHandles then ({ openHandles := s.openHandles.erase h }, none)
  else (s, some "invalid handle")

/-- Oracle for the native calls of the lifecycle: UTF16 conversion results,
the status and out-parameter of `WslLaunch`, the status of
`WaitForSingleObject`, and the outcome of `GetExitCodeProcess`. -/
structure ExecEnv where
  nameUTF16ok : Bool
  cmdUTF16ok : Bool
  launchR1 : Nat
  launchHandle : Nat
  waitR1 : Nat
  getExitErr : Option String
  exitCode : Nat
  deriving DecidableEq, Repr

/-- Go `(i *Distro) Command(command string) Cmd`. -/
def Distro.Command (d : Distro) (command : String) : Cmd :=
  { Stdin := 0
    Stdout := 1
    Stderr := 2
    UseCWD := false
    instanceName := d.Name
    handle := 0
    command := command }

/-- Go `(p *Cmd) Close() error`: calls `CloseHandle(p.handle)`
unconditionally and then (deferred) sets `p.handle = 0`.  Returns the
updated `Cmd` (pointer receiver), the native state, the trace, and the
error of `CloseHandle`. -/
def Cmd.Close (p : Cmd) (s : NState) : Cmd × NState × List NativeCall × Option WslError :=
  let r := closeHandleNative s p.handle
  ({ p with handle := 0 }, r.1, [NativeCall.closeHandle p.handle], r.2.map WslError.generic)

/-- Go `(p *Cmd) queryStatus() error`: `GetExitCodeProcess`, then a
`*ExitError` for a nonzero exit code. -/
def Cmd.queryStatus (_p : Cmd) (env : ExecEnv) : List NativeCall × Option WslError :=
  ([NativeCall.getExitCodeProcess],
    match env.getExitErr with
    | some e => some (WslError.generic e)
    | none => if env.exitCode ≠ 0 then some (WslError.exitError env.exitCode) else none)

/-- Go `(p Cmd) Wait() error` (value receiver): `defer p.Close()`;
`WaitForSingleObject`; on success `queryStatus`.  The first component is
the caller's `Cmd`, unchanged, because the receiver is a copy; the deferred
`Close` still issues the native `CloseHandle` on the shared handle value. -/
def Cmd.Wait (p : Cmd) (env : ExecEnv) (s : NState) :
    Cmd × NState × List NativeCall × Option WslError :=
  if env.waitR1 ≠ 0 then
    let c := p.Close s
    (p, c.2.1, NativeCall.waitForSingleObject :: c.2.2.1,
      some (WslError.generic "failed syscall to WaitForSingleObject"))
  else
    let q := p.queryStatus env
    let c := p.Close s
    (p, c.2.1, NativeCall.waitForSingleObject :: q.1 ++ c.2.2.1, q.2)

/-- Go `(p *Cmd) Start() error`: UTF16 conversions, then `WslLaunch`, which
writes the native handle into `p.handle`. -/
def Cmd.Start (p : Cmd) (env : ExecEnv) : Cmd × List NativeCall × Option WslError :=
  if !env.nameUTF16ok then
    (p, [], some (WslError.generic ("failed to convert '" ++ p.instanceName ++ "' to UTF16")))
  else if !env.cmdUTF16ok then
    (p, [], some (WslError.generic ("failed to convert '" ++ p.command ++ "' to UTF16")))
  else
    let p := { p with handle := env.launchHandle }
    if env.launchR1 ≠ 0 then
      (p, [NativeCall.launch], some (WslError.generic "failed syscall to WslLaunch"))
    else
      (p, [NativeCall.launch], none)

/-- Go `(p *Cmd) Run() error`: `Start`, and only if it returned no error,
`Wait`. -/
def Cmd.Run (p : Cmd) (env : ExecEnv) (s : NState) :
    Cmd × NState × List NativeCall × Option WslError :=
  let st := p.Start env
  match st.2.2 with
  | some e => (st.1, s, st.2.1, some e)
  | none =>
    let w := st.1.Wait env s
    (w.1, w.2.1, st.2.1 ++ w.2.2.1, w.2.2.2)

/-! ## Interactive shell (the shell source file) -/

/-- Go `type shellOptions struct`. -/
structure shellOptions where
  command : String
  useCWD : Bool
  deriving DecidableEq, Repr

/-- Go `UseCWD()` optional parameter. -/
def UseCWD : shellOptions → shellOptions := fun o => { o with useCWD := true }

/-- Go `WithCommand(cmd string)` optional parameter. -/
def WithCommand (cmd : String) : shellOptions → shellOptions :=
  fun o => { o with command := cmd }

/-- Oracle for the native calls made by `Shell`: the result of enumerating
registered distros (`none` = the enumeration itself failed), the UTF16
conversions, and the status and exit code of `WslLaunchInteractive`. -/
structure ShellEnv where
  registeredDistros : Option (List String)
  nameUTF16ok : Bool
  cmdUTF16ok : Bool
  launchInteractiveR1 : Nat
  interactiveExitCode : Nat
  deriving DecidableEq, Repr

/-- Go `wslIsDistributionRegistered`: scans `RegisteredDistros()` for the
name. -/
def wslIsDistributionRegistered (env : ShellEnv) (distributionName : String) :
    Except String Bool :=
  match env.registeredDistros with
  | none => Except.error "failed to list registered distros"
  | some distros => Except.ok (distros.contains distributionName)

/-- Go `(d Distro) IsRegistered() (bool, error)`: wraps the error with the
distro name. -/
def Distro.IsRegistered (d : Distro) (env : ShellEnv) : Except String Bool :=
  match wslIsDistributionRegistered env d.Name with
  | Except.error e =>
    Except.error ("failed to detect if \"" ++ d.Name ++ "\" is registered: " ++ e)
  | Except.ok b => Except.ok b

/-- Go `wslLaunchInteractive`: UTF16 conversions, the native call, the
`WindowsError` sentinel check, then the exit code out-parameter. -/
def wslLaunchInteractiveCall (env : ShellEnv) (command : String) (_useCwd : Bool) :
    List NativeCall × Except String Nat :=
  if !env.nameUTF16ok then
    ([], Except.error "failed to convert distro name to UTF16")
  else if !env.cmdUTF16ok then
    ([], Except.error ("failed to convert command \"" ++ command ++ "\" to UTF16"))
  else if env.launchInteractiveR1 ≠ 0 then
    ([NativeCall.launchInteractive], Except.error "failed syscall to WslLaunchInteractive")
  else if env.interactiveExitCode = WindowsError then
    ([NativeCall.launchInteractive],
      Except.error "error on windows' side on WslLaunchInteractive")
  else
    ([NativeCall.launchInteractive], Except.ok env.interactiveExitCode)

/-- The body of Go `(d *Distro) Shell(opts ...)`: registration check first,
then option folding, then the interactive launch, then the nonzero-exit
check. -/
def Distro.shellBody (d : Distro) (env : ShellEnv)
    (opts : List (shellOptions → shellOptions)) : List NativeCall × Option WslError :=
  match d.IsRegistered env with
  | Except.error e => ([], some (WslError.generic e))
  | Except.ok r =>
    if !r then ([], some (WslError.generic "distro is not registered"))
    else
      let options := opts.foldl (fun o f => f o) { command := "", useCWD := false }
      match wslLaunchInteractiveCall env options.command options.useCWD with
      | (t, Except.error e) => (t, some (WslError.generic e))
      | (t, Except.ok exitCode) =>
        if exitCode ≠ 0 then (t, some (WslError.exitError exitCode)) else (t, none)

/-- Go `(d *Distro) Shell(opts ...)`: the body, then the deferred wrapper
that decorates the error with the distro name.  The wrapper's
`errors.Is(err, ExitError{})` test compares the `*ExitError` the body can
produce against the value `ExitError{}`; the dynamic types differ and
`ExitError` has no `Is` or `Unwrap` method, so the test is always false and
every non-nil error is decorated (`%v` of `*ExitError` prints its `Error()`
string `exit error: <code>`). -/
def Distro.Shell (d : Distro) (env : ShellEnv)
    (opts : List (shellOptions → shellOptions)) : List NativeCall × Option WslError :=
  let r := d.shellBody env opts
  match r.2 with
  | none => (r.1, none)
  | some e =>
    (r.1, some (WslError.generic ("error in Shell with distro \"" ++ d.Name ++ "\": " ++
      (match e with
       | WslError.generic m => m
       | WslError.exitError c => "exit error: " ++ toString c))))

/-! ## Cached process status (exec_windows.go)

The windows exec file's `Cmd` carries an `exitStatus` cache alongside the
handle; it is modelled here as `CmdW` (the bare name `Cmd` is taken by the
lifecycle structure above).  `GetExitCodeProcess` is an oracle
`native : Nat → Option Nat` indexed by how many native status queries have
been issued so far; each embedded function threads that call counter, so
"returns without querying the native layer" is statable as the counter not
advancing. -/

/-- The `Cmd` of exec_windows.go: the native handle and the cached exit
status. -/
structure CmdW where
  handle : Nat
  exitStatus : Option Nat
  deriving DecidableEq, Repr

/-- Go `(c *Cmd) status() (exit uint32, err error)`: returns the cache when
present; otherwise issues `GetExitCodeProcess` (advancing the call counter)
and returns its result (`WindowsError` on failure).  The source never
writes `c.exitStatus` here. -/
def CmdW.status (c : CmdW) (native : Nat → Option Nat) (calls : Nat) :
    (Nat × Option String) × CmdW × Nat :=
  match c.exitStatus with
  | some s => ((s, none), c, calls)
  | none =>
    match native calls with
    | none => ((WindowsError, some "failed to retrieve exit status"), c, calls + 1)
    | some exit => ((exit, none), c, calls + 1)

/-- Go `(c *Cmd) kill() error`: queries `status`, resets the cache, stores
the status when the query succeeded, then `TerminateProcess`. -/
def CmdW.kill (c : CmdW) (native : Nat → Option Nat) (calls : Nat) (terminateOk : Bool) :
    Option String × CmdW × Nat :=
  let s := c.status native calls
  let c1 := { s.2.1 with exitStatus := if s.1.2 = none then some s.1.1 else none }
  ((if terminateOk then none else some "terminate failed"), c1, s.2.2)

/-! ## Lemmas about `strnlen` -/

/-- On the all-ones (never terminated) buffer the `strnlen` loop runs until
`length ≤ maxlen` fails, i.e. until `length = maxlen + 1`. -/
theorem strnlenAux_const_one :
    ∀ (fuel pos length maxlen : Nat), fuel = maxlen + 2 - length →
      length ≤ maxlen + 1 →
      strnlenAux (fun _ => 1) pos length maxlen fuel = maxlen + 1 := by
  intro fuel
  induction fuel with
  | zero =>
    intro pos length maxlen hfuel hle
    omega
  | succ n ih =>
    intro pos length maxlen hfuel hle
    by_cases h : length ≤ maxlen
    · rw [strnlenAux, if_pos ⟨one_ne_zero, h⟩]
      exact ih (pos + 1) (length + 1) maxlen (by omega) (by omega)
    · rw [strnlenAux, if_neg (by simp [h])]
      omega

/-- `strnlen` on a buffer with no null terminator returns `maxlen + 1`,
one past the advertised bound. -/
theorem strnlen_const_one (maxlen : Nat) :
    strnlen (fun _ => 1) maxlen = maxlen + 1 :=
  strnlenAux_const_one (maxlen + 2) 0 0 maxlen (by omega) (by omega)

/-- Claim C2: for a byte string without a null terminator within the search
bound (`maxlen = 32768`), `strnlen`/`stringCtoGo` are claimed to truncate at
exactly the bound, with decoded length always `≤ maxlen`.  The code violates
this: the loop condition `length <= maxlen` admits one extra iteration, so on
a buffer of nonzero bytes `strnlen` returns `32769` and `stringCtoGo` decodes
`32769` bytes, exceeding the bound by one (and reading one byte past it). -/
theorem claim_C2_strnlen_scans_past_bound :
    strnlen (fun _ => 1) 32768 = 32769 ∧
      (stringCtoGo (fun _ => 1) 32768).length = 32769 ∧ ¬ (32769 ≤ 32768) := by
  refine ⟨strnlen_const_one 32768, ?_, by omega⟩
  rw [stringCtoGo, strnlen_const_one 32768, List.length_map, List.length_range]

/-- Claim C1: decoding an environment entry that lacks a `=` separator is
claimed to surface a malformed-environment-entry error and never panic.  The
code violates this: on the entry `"FOO"` (bytes `[70, 79, 79]`, no `=`),
`strings.Index` returns `-1` and the slice `goStr[:idx]` panics, crashing the
whole decode (modelled by the `none` result); no error value is ever
produced. -/
theorem claim_C1_malformed_entry_panics :
    processEnvVariables [memOf [70, 79, 79]] = none ∧
      decodeEntry (memOf [70, 79, 79]) = none := by
  constructor <;> decide

/-! ## Correctness of the decoder on well-formed entries -/

/-- The `strnlen` loop on the buffer of a properly terminated string stops
exactly at the terminator.  `pos` and `length` advance together, so a
single counter `k` serves as both. -/
theorem strnlenAux_memOf (l : List Nat) (maxlen : Nat)
    (hnz : ∀ b ∈ l, b ≠ 0) (hlen : l.length ≤ maxlen + 1) :
    ∀ (fuel k : Nat), fuel = maxlen + 2 - k → k ≤ l.length →
      strnlenAux (memOf l) k k maxlen fuel = l.length := by
  intro fuel
  induction fuel with
  | zero =>
    intro k hfuel hk
    omega
  | succ n ih =>
    intro k hfuel hk
    by_cases hlt : k < l.length
    · have hmem : memOf l k ≠ 0 := by
        show l.getD k 0 ≠ 0
        rw [List.getD_eq_getElem l 0 hlt]
        exact hnz _ (l.getElem_mem hlt)
      rw [strnlenAux, if_pos ⟨hmem, by omega⟩]
      exact ih (k + 1) (by omega) (by omega)
    · have hk' : k = l.length := by omega
      have hmem : memOf l k = 0 := by
        show l.getD k 0 = 0
        exact List.getD_eq_default l 0 (by omega)
      rw [strnlenAux, if_neg (by simp [hmem])]
      omega

/-- `strnlen` on a properly terminated string of length `≤ maxlen + 1`
returns its length. -/
theorem strnlen_memOf (l : List Nat) (maxlen : Nat)
    (hnz : ∀ b ∈ l, b ≠ 0) (hlen : l.length ≤ maxlen + 1) :
    strnlen (memOf l) maxlen = l.length :=
  strnlenAux_memOf l maxlen hnz hlen (maxlen + 2) 0 (by omega) (by omega)

/-- `stringCtoGo` round-trips a properly terminated string. -/
theorem stringCtoGo_memOf (l : List Nat) (maxlen : Nat)
    (hnz : ∀ b ∈ l, b ≠ 0) (hlen : l.length ≤ maxlen + 1) :
    stringCtoGo (memOf l) maxlen = l := by
  rw [stringCtoGo, strnlen_memOf l maxlen hnz hlen]
  apply List.ext_getElem
  · simp
  · intro n h1 h2
    simp only [List.getElem_map, List.getElem_range]
    exact List.getD_eq_getElem l 0 h2

/-- `strings.Index` finds the separator of `KEY=VALUE` exactly at the end
of the key when the key holds no `=`. -/
theorem strIndex_sep {k : List Nat} (h : 61 ∉ k) (v : List Nat) :
    strIndex (k ++ 61 :: v) = some k.length := by
  induction k with
  | nil => simp [strIndex]
  | cons b rest ih =>
    have hb : ¬ (b = 61) := fun hb => h (by simp [hb])
    have hr : 61 ∉ rest := fun hr => h (List.mem_cons_of_mem _ hr)
    simp [strIndex, hb, ih hr]

/-- Decoding the native string `KEY=VALUE` (key free of `=`, both parts
free of the null byte, total length within the bound) yields exactly the
key/value pair. -/
theorem decodeEntry_wellFormed (k v : List Nat)
    (hsep : 61 ∉ k) (hk : ∀ b ∈ k, b ≠ 0) (hv : ∀ b ∈ v, b ≠ 0)
    (hlen : (k ++ 61 :: v).length ≤ 32769) :
    decodeEntry (memOf (k ++ 61 :: v)) = some (k, v) := by
  have hnz : ∀ b ∈ k ++ 61 :: v, b ≠ 0 := by
    intro b hb
    rcases List.mem_append.mp hb with h | h
    · exact hk b h
    · rcases List.mem_cons.mp h with h | h
      · subst h; decide
      · exact hv b h
  have ht : (k ++ 61 :: v).take k.length = k := List.take_left k (61 :: v)
  have hd : (k ++ 61 :: v).drop (k.length + 1) = v := by
    have h1 : k ++ 61 :: v = (k ++ [61]) ++ v := by simp
    have h2 : (k ++ [61]).length = k.length + 1 := by simp
    rw [h1, ← h2, List.drop_left]
  simp only [decodeEntry, stringCtoGo_memOf _ 32768 hnz (by omega), strIndex_sep hsep v,
    ht, hd]

/-- A Go map assignment with a key absent from the map appends. -/
theorem mapUpsert_fresh (m : EnvMap) (k v : List Nat) (h : ∀ kv ∈ m, kv.1 ≠ k) :
    mapUpsert m k v = m ++ [(k, v)] := by
  rw [mapUpsert, if_neg]
  simp only [List.any_eq_true, not_exists, not_and]
  intro kv hkv
  simpa using h kv hkv

/-- The collection loop of `processEnvVariables` on well-formed entries
with fresh, pairwise-distinct keys appends every decoded pair to the
accumulator. -/
theorem processEnvGo_wellFormed :
    ∀ (entries : List (List Nat × List Nat)) (m : EnvMap),
      (∀ kv ∈ entries, 61 ∉ kv.1 ∧ (∀ b ∈ kv.1, b ≠ 0) ∧ (∀ b ∈ kv.2, b ≠ 0) ∧
        (kv.1 ++ 61 :: kv.2).length ≤ 32769) →
      (∀ kv ∈ entries, ∀ kv' ∈ m, kv'.1 ≠ kv.1) →
      List.Pairwise (fun a b => a.1 ≠ b.1) entries →
      processEnvGo (entries.map fun kv => memOf (kv.1 ++ 61 :: kv.2)) m =
        some (m ++ entries) := by
  intro entries
  induction entries with
  | nil =>
    intro m _ _ _
    simp [processEnvGo]
  | cons kv rest ih =>
    intro m hwf hfresh hpw
    obtain ⟨hsep, hk, hv, hlen⟩ := hwf kv (by simp)
    have hdec := decodeEntry_wellFormed kv.1 kv.2 hsep hk hv hlen
    simp only [List.map_cons, processEnvGo, hdec]
    rw [mapUpsert_fresh m kv.1 kv.2 (hfresh kv (by simp))]
    have hfresh' : ∀ kv' ∈ rest, ∀ kv'' ∈ m ++ [(kv.1, kv.2)], kv''.1 ≠ kv'.1 := by
      intro kv' hkv' kv'' hkv''
      rcases List.mem_append.mp hkv'' with h | h
      · exact hfresh kv' (by simp [hkv']) kv'' h
      · have : kv'' = (kv.1, kv.2) := by simpa using h
        subst this
        exact (List.pairwise_cons.mp hpw).1 kv' hkv'
    have := ih (m ++ [(kv.1, kv.2)]) (fun kv' h' => hwf kv' (by simp [h']))
      hfresh' (List.pairwise_cons.mp hpw).2
    simpa using this

/-- Looking a key up in an association list with pairwise-distinct keys
finds its value. -/
theorem mapLookup_of_pairwise :
    ∀ (entries : EnvMap), List.Pairwise (fun a b => a.1 ≠ b.1) entries →
      ∀ kv ∈ entries, mapLookup entries kv.1 = some kv.2 := by
  intro entries
  induction entries with
  | nil => simp
  | cons a rest ih =>
    intro hpw kv hkv
    rcases List.mem_cons.mp hkv with h | h
    · subst h
      simp [mapLookup, List.find?]
    · have hne : a.1 ≠ kv.1 := (List.pairwise_cons.mp hpw).1 kv h
      have := ih (List.pairwise_cons.mp hpw).2 kv h
      simpa [mapLookup, List.find?, hne] using this

/-- Claim C5: for every count of well-formed null-terminated `KEY=VALUE`
native strings, each within the length bound, with pairwise-distinct keys,
`processEnvVariables` returns a mapping with exactly `count` entries in
which each key maps to its value byte-for-byte. -/
theorem claim_C5_wellformed_decode (entries : List (List Nat × List Nat))
    (hwf : ∀ kv ∈ entries, 61 ∉ kv.1 ∧ (∀ b ∈ kv.1, b ≠ 0) ∧ (∀ b ∈ kv.2, b ≠ 0) ∧
      (kv.1 ++ 61 :: kv.2).length ≤ 32768)
    (hdist : List.Pairwise (fun a b => a.1 ≠ b.1) entries) :
    ∃ m, processEnvVariables (entries.map fun kv => memOf (kv.1 ++ 61 :: kv.2)) = some m ∧
      m.length = entries.length ∧
      ∀ kv ∈ entries, mapLookup m kv.1 = some kv.2 := by
  refine ⟨entries, ?_, rfl, mapLookup_of_pairwise entries hdist⟩
  have hwf' : ∀ kv ∈ entries, 61 ∉ kv.1 ∧ (∀ b ∈ kv.1, b ≠ 0) ∧ (∀ b ∈ kv.2, b ≠ 0) ∧
      (kv.1 ++ 61 :: kv.2).length ≤ 32769 := by
    intro kv h
    obtain ⟨h1, h2, h3, h4⟩ := hwf kv h
    exact ⟨h1, h2, h3, by omega⟩
  have := processEnvGo_wellFormed entries [] hwf' (by simp) hdist
  simpa [processEnvVariables] using this

/-- Witness for claim C5 at the two-entry block `A=1`, `B=2`. -/
theorem claim_C5_witness :
    ∃ m, processEnvVariables
        (([([65], [49]), ([66], [50])] : List (List Nat × List Nat)).map
          fun kv => memOf (kv.1 ++ 61 :: kv.2)) = some m ∧
      m.length = ([([65], [49]), ([66], [50])] : List (List Nat × List Nat)).length ∧
      ∀ kv ∈ ([([65], [49]), ([66], [50])] : List (List Nat × List Nat)),
        mapLookup m kv.1 = some kv.2 :=
  claim_C5_wellformed_decode [([65], [49]), ([66], [50])] (by decide) (by decide)

/-! ## The flag codec -/

/-- Packing a configuration with a valid version discriminant succeeds,
and unpacking the packed flags (into any base configuration) restores the
three feature flags and the version discriminant. -/
theorem unpack_pack_fields (c c' : Configuration)
    (hv : c.undocumentedWSLVersion = 1 ∨ c.undocumentedWSLVersion = 2) :
    ∃ f, c.packFlags = Except.ok f ∧
      (c'.unpackFlags f).InteropEnabled = c.InteropEnabled ∧
      (c'.unpackFlags f).PathAppended = c.PathAppended ∧
      (c'.unpackFlags f).DriveMountingEnabled = c.DriveMountingEnabled ∧
      (c'.unpackFlags f).undocumentedWSLVersion = c.undocumentedWSLVersion := by
  obtain ⟨V, U, I, P, D, W, E⟩ := c
  rcases hv with hv | hv <;> simp only at hv <;> subst hv <;>
    cases I <;> cases P <;> cases D <;>
    refine ⟨_, rfl, ?_, ?_, ?_, ?_⟩ <;>
    · simp only [Configuration.unpackFlags, Configuration.packFlags]
      norm_num
      decide

/-- Claim C6: for every `Configuration` whose version discriminant is 1
or 2, packing the flags and then unpacking them reproduces the identical
four mutable-relevant fields: interop flag, path-append flag, drive-mount
flag, and the version discriminant. -/
theorem claim_C6_pack_unpack_roundtrip (c c' : Configuration)
    (hv : c.undocumentedWSLVersion = 1 ∨ c.undocumentedWSLVersion = 2) :
    ∃ f, c.packFlags = Except.ok f ∧
      (c'.unpackFlags f).InteropEnabled = c.InteropEnabled ∧
      (c'.unpackFlags f).PathAppended = c.PathAppended ∧
      (c'.unpackFlags f).DriveMountingEnabled = c.DriveMountingEnabled ∧
      (c'.unpackFlags f).undocumentedWSLVersion = c.undocumentedWSLVersion :=
  unpack_pack_fields c c' hv

/-- Witness for claim C6 at version 2, interop `true`, path-append
`false`, drive-mount `true`. -/
theorem claim_C6_witness :
    ∃ f, ({ zeroConfiguration with
        InteropEnabled := true
        PathAppended := false
        DriveMountingEnabled := true
        undocumentedWSLVersion := 2 } : Configuration).packFlags = Except.ok f ∧
      (zeroConfiguration.unpackFlags f).InteropEnabled = true ∧
      (zeroConfiguration.unpackFlags f).PathAppended = false ∧
      (zeroConfiguration.unpackFlags f).DriveMountingEnabled = true ∧
      (zeroConfiguration.unpackFlags f).undocumentedWSLVersion = 2 :=
  claim_C6_pack_unpack_roundtrip
    { zeroConfiguration with
        InteropEnabled := true
        PathAppended := false
        DriveMountingEnabled := true
        undocumentedWSLVersion := 2 }
    zeroConfiguration (Or.inr rfl)

/-- Claim C7: `packFlags` returns a result (rather than the
invalid-configuration error) if and only if the version discriminant is 1
or 2. -/
theorem claim_C7_pack_version_check (c : Configuration) :
    (∃ f, c.packFlags = Except.ok f) ↔
      (c.undocumentedWSLVersion = 1 ∨ c.undocumentedWSLVersion = 2) := by
  obtain ⟨V, U, I, P, D, W, E⟩ := c
  rcases W with _ | _ | _ | W <;> simp [Configuration.packFlags]

/-! ## Handle release and the lifecycle claims -/

/-- Claim C3: the claim states that the native handle is released exactly
once along any path and that a second or later `Close` is a guaranteed
no-op returning no error.  The code violates this: a second `Close`
invokes `CloseHandle(0)`, which returns an error; worse, `Wait` has a
value receiver, so its deferred `Close` zeroes only the method's copy of
the `Cmd` — after `Wait` the caller's handle is still `5` and a caller's
deferred `Close` issues `CloseHandle(5)` a second time (a genuine double
release, which also errors).  Evaluated here on a started command with
native handle 5. -/
theorem claim_C3_close_releases_twice :
    let p0 : Cmd := ⟨1, 0, 2, false, "d", "c", 5⟩
    let s0 : NState := ⟨[5]⟩
    let env0 : ExecEnv := ⟨true, true, 0, 5, 0, none, 0⟩
    ((p0.Close s0).2.2.2 = none) ∧
    (((p0.Close s0).1.Close (p0.Close s0).2.1).2.2.2 ≠ none) ∧
    ((p0.Wait env0 s0).1.handle = 5) ∧
    (NativeCall.closeHandle 5 ∈ (p0.Wait env0 s0).2.2.1) ∧
    (((p0.Wait env0 s0).1.Close (p0.Wait env0 s0).2.1).2.2.1 = [NativeCall.closeHandle 5]) ∧
    (((p0.Wait env0 s0).1.Close (p0.Wait env0 s0).2.1).2.2.2 ≠ none) := by
  decide

/-- Claim C4: the claim states that after a successful `status()` the
queried exit code is cached in `exitStatus`, so a subsequent `status()`
returns the same value without querying the native layer.  The code
violates the caching half: `status()` never writes `exitStatus`.  Here the
native layer answers 5 to the first query and 7 to the second: the first
`status()` succeeds with 5 but leaves `exitStatus` empty, and the second
`status()` queries the native layer again (the call counter advances to 2)
and returns 7, not 5. -/
theorem claim_C4_status_does_not_cache :
    let c0 : CmdW := ⟨5, none⟩
    let native : Nat → Option Nat := fun n => if n = 0 then some 5 else some 7
    ((c0.status native 0).1 = (5, none)) ∧
    ((c0.status native 0).2.1.exitStatus = none) ∧
    ((c0.status native 0).2.2 = 1) ∧
    (((c0.status native 0).2.1.status native (c0.status native 0).2.2).1 = (7, none)) ∧
    (((c0.status native 0).2.1.status native (c0.status native 0).2.2).2.2 = 2) := by
  decide

/-- Claim C4 (amended): `status()` returns the cached exit status (without
querying the native layer) when one is present; otherwise it queries the
native layer and returns the result *without* caching it — `exitStatus` is
only populated by `kill()`. -/
theorem claim_C4_status_cache_behavior (c : CmdW) (native : Nat → Option Nat) (calls : Nat) :
    (∀ s, c.exitStatus = some s → c.status native calls = ((s, none), c, calls)) ∧
    (c.exitStatus = none →
      (c.status native calls).2.1 = c ∧
      (c.status native calls).2.2 = calls + 1 ∧
      ∀ e, native calls = some e → (c.status native calls).1 = (e, none)) ∧
    (c.exitStatus = none → ∀ e, native calls = some e →
      (c.kill native calls true).2.1.exitStatus = some e) := by
  refine ⟨?_, ?_, ?_⟩
  · intro s hs
    simp [CmdW.status, hs]
  · intro h
    cases hn : native calls <;> simp [CmdW.status, h, hn]
  · intro h e he
    simp [CmdW.kill, CmdW.status, h, he]

/-- Witness for the amended claim C4: a cached status of 3 is returned
as-is without advancing the native call counter, and `kill` caches the
status 9 it obtained. -/
theorem claim_C4_cache_witness :
    CmdW.status ⟨5, some 3⟩ (fun _ => none) 0 = ((3, none), ⟨5, some 3⟩, 0) ∧
      (CmdW.kill ⟨5, none⟩ (fun _ => some 9) 0 true).2.1.exitStatus = some 9 :=
  ⟨(claim_C4_status_cache_behavior ⟨5, some 3⟩ (fun _ => none) 0).1 3 rfl,
   (claim_C4_status_cache_behavior ⟨5, none⟩ (fun _ => some 9) 0).2.2 rfl 9 rfl⟩

/-- Claim C8: when `Start` succeeds and the native wait and status query
succeed, `Run` returns no error exactly when the process exited 0 and a
`*ExitError` carrying exactly the exit code otherwise; and when `Start`
fails, `Run` returns `Start`'s error and never issues
`WaitForSingleObject`. -/
theorem claim_C8_run_exit_codes (env : ExecEnv) (p : Cmd) (s : NState) :
    (env.nameUTF16ok = true → env.cmdUTF16ok = true → env.launchR1 = 0 → env.waitR1 = 0 →
      env.getExitErr = none →
      (p.Run env s).2.2.2 =
        (if env.exitCode = 0 then none else some (WslError.exitError env.exitCode))) ∧
    (∀ e, (p.Start env).2.2 = some e →
      (p.Run env s).2.2.2 = some e ∧
      NativeCall.waitForSingleObject ∉ (p.Run env s).2.2.1) := by
  constructor
  · intro h1 h2 h3 h4 h5
    by_cases hc : env.exitCode = 0 <;>
      simp [Cmd.Run, Cmd.Start, Cmd.Wait, Cmd.queryStatus, h1, h2, h3, h4, h5, hc]
  · intro e he
    have hnw : NativeCall.waitForSingleObject ∉ (p.Start env).2.1 := by
      simp only [Cmd.Start]
      split_ifs <;> simp
    constructor
    · simp [Cmd.Run, he]
    · simpa [Cmd.Run, he] using hnw

/-- Witness for claim C8: a process exiting 7 yields `*ExitError{7}`, and a
failed `WslLaunch` means `Run` errors without ever waiting. -/
theorem claim_C8_witness :
    ((Cmd.Run ⟨1, 0, 2, false, "d", "c", 0⟩ ⟨true, true, 0, 5, 0, none, 7⟩ ⟨[5]⟩).2.2.2 =
      some (WslError.exitError 7)) ∧
    ((Cmd.Run ⟨1, 0, 2, false, "d", "c", 0⟩ ⟨true, true, 1, 5, 0, none, 0⟩ ⟨[5]⟩).2.2.2 =
      some (WslError.generic "failed syscall to WslLaunch") ∧
      NativeCall.waitForSingleObject ∉
        (Cmd.Run ⟨1, 0, 2, false, "d", "c", 0⟩ ⟨true, true, 1, 5, 0, none, 0⟩ ⟨[5]⟩).2.2.1) := by
  constructor
  · have h := (claim_C8_run_exit_codes ⟨true, true, 0, 5, 0, none, 7⟩
      ⟨1, 0, 2, false, "d", "c", 0⟩ ⟨[5]⟩).1 rfl rfl rfl rfl rfl
    simpa using h
  · exact (claim_C8_run_exit_codes ⟨true, true, 1, 5, 0, none, 0⟩
      ⟨1, 0, 2, false, "d", "c", 0⟩ ⟨[5]⟩).2
      (WslError.generic "failed syscall to WslLaunch") (by decide)

/-- Claim C9: `Shell` on a distro that is not registered checks
registration up front and fails with an error naming the distro, without
issuing the native interactive-launch call (the returned trace is empty). -/
theorem claim_C9_shell_unregistered (d : Distro) (env : ShellEnv)
    (opts : List (shellOptions → shellOptions)) (l : List String)
    (hreg : env.registeredDistros = some l) (hnot : d.Name ∉ l) :
    d.Shell env opts =
      ([], some (WslError.generic
        ("error in Shell with distro \"" ++ d.Name ++ "\": distro is not registered"))) := by
  simp [Distro.Shell, Distro.shellBody, Distro.IsRegistered, wslIsDistributionRegistered,
    hreg, hnot]
  have hlit : ("\": " ++ "distro is not registered" : String) = "\": distro is not registered" :=
    rfl
  rw [String.append_assoc, hlit]

/-- Witness for claim C9 at the distro name `Ubuntu` with no registered
distros. -/
theorem claim_C9_witness :
    Distro.Shell ⟨"Ubuntu"⟩ ⟨some [], true, true, 0, 0⟩ [] =
      ([], some (WslError.generic
        ("error in Shell with distro \"" ++ "Ubuntu" ++ "\": distro is not registered"))) :=
  claim_C9_shell_unregistered ⟨"Ubuntu"⟩ ⟨some [], true, true, 0, 0⟩ [] [] rfl (by simp)

/-! ## The setter frame property (C10) -/

/-- Unpacking any flag word yields a version discriminant of 1 or 2. -/
theorem unpackFlags_version_valid (c : Configuration) (fl : Nat) :
    (c.unpackFlags fl).undocumentedWSLVersion = 1 ∨
      (c.unpackFlags fl).undocumentedWSLVersion = 2 := by
  simp only [Configuration.unpackFlags]
  by_cases hb : (fl.land flag_undocumented_WSL_VERSION != 0) = true <;> simp [hb]

/-- `GetConfiguration` under a successful native get and a decodable
environment block returns the unpacked configuration. -/
theorem getConfiguration_oracle (d : Distro) (env : DistroEnv) (v u fl : Nat)
    (blk : List (Nat → Nat)) (m : EnvMap)
    (h1 : env.nameUTF16ok = true) (h2 : env.getConfig = some (v, u, fl, blk))
    (h3 : processEnvVariables blk = some m) :
    d.GetConfiguration env =
      Res.ok { (({ zeroConfiguration with
          Version := v, DefaultUID := u } : Configuration).unpackFlags fl) with
        DefaultEnvironmentVariables := m } := by
  simp [Distro.GetConfiguration, h1, h2, h3]

/-- `configure` with a valid version discriminant and a successful native
call passes the configuration's UID together with flags that unpack back
to the configuration's own feature flags and version. -/
theorem configure_roundtrip (d : Distro) (env : DistroEnv) (c : Configuration)
    (hv : c.undocumentedWSLVersion = 1 ∨ c.undocumentedWSLVersion = 2)
    (h1 : env.nameUTF16ok = true) (h4 : env.configureR1 = 0) :
    ∃ f, (d.configure env c).2 = some (c.DefaultUID, f) ∧
      (zeroConfiguration.unpackFlags f).InteropEnabled = c.InteropEnabled ∧
      (zeroConfiguration.unpackFlags f).PathAppended = c.PathAppended ∧
      (zeroConfiguration.unpackFlags f).DriveMountingEnabled = c.DriveMountingEnabled ∧
      (zeroConfiguration.unpackFlags f).undocumentedWSLVersion = c.undocumentedWSLVersion := by
  obtain ⟨f, hpack, hI, hP, hD, hW⟩ := unpack_pack_fields c zeroConfiguration hv
  exact ⟨f, by simp [Distro.configure, h1, hpack, h4], hI, hP, hD, hW⟩

/-- Claim C10: each single-field setter (`DefaultUID`, `InteropEnabled`,
`PathAppended`, `DriveMountingEnabled`) fetches the configuration, changes
only its field and pushes the rest through: when the native get succeeds
(returning flags `fl` and uid `u`) and the native configure call is
issued, the configure call receives the fetched uid (except for the
`DefaultUID` setter, which passes the new uid) and flags that decode to
the same values as `fl` on every untouched field. -/
theorem claim_C10_setters_frame (d : Distro) (env : DistroEnv) (v u fl : Nat)
    (blk : List (Nat → Nat)) (m : EnvMap) (value : Bool) (uid : Nat)
    (h1 : env.nameUTF16ok = true) (h2 : env.getConfig = some (v, u, fl, blk))
    (h3 : processEnvVariables blk = some m) (h4 : env.configureR1 = 0) :
    (∃ f, (d.InteropEnabled env value).2 = some (u, f) ∧
      (zeroConfiguration.unpackFlags f).PathAppended =
        (zeroConfiguration.unpackFlags fl).PathAppended ∧
      (zeroConfiguration.unpackFlags f).DriveMountingEnabled =
        (zeroConfiguration.unpackFlags fl).DriveMountingEnabled ∧
      (zeroConfiguration.unpackFlags f).undocumentedWSLVersion =
        (zeroConfiguration.unpackFlags fl).undocumentedWSLVersion) ∧
    (∃ f, (d.PathAppended env value).2 = some (u, f) ∧
      (zeroConfiguration.unpackFlags f).InteropEnabled =
        (zeroConfiguration.unpackFlags fl).InteropEnabled ∧
      (zeroConfiguration.unpackFlags f).DriveMountingEnabled =
        (zeroConfiguration.unpackFlags fl).DriveMountingEnabled ∧
      (zeroConfiguration.unpackFlags f).undocumentedWSLVersion =
        (zeroConfiguration.unpackFlags fl).undocumentedWSLVersion) ∧
    (∃ f, (d.DriveMountingEnabled env value).2 = some (u, f) ∧
      (zeroConfiguration.unpackFlags f).InteropEnabled =
        (zeroConfiguration.unpackFlags fl).InteropEnabled ∧
      (zeroConfiguration.unpackFlags f).PathAppended =
        (zeroConfiguration.unpackFlags fl).PathAppended ∧
      (zeroConfiguration.unpackFlags f).undocumentedWSLVersion =
        (zeroConfiguration.unpackFlags fl).undocumentedWSLVersion) ∧
    (∃ f, (d.DefaultUID env uid).2 = some (uid, f) ∧
      (zeroConfiguration.unpackFlags f).InteropEnabled =
        (zeroConfiguration.unpackFlags fl).InteropEnabled ∧
      (zeroConfiguration.unpackFlags f).PathAppended =
        (zeroConfiguration.unpackFlags fl).PathAppended ∧
      (zeroConfiguration.unpackFlags f).DriveMountingEnabled =
        (zeroConfiguration.unpackFlags fl).DriveMountingEnabled ∧
      (zeroConfiguration.unpackFlags f).undocumentedWSLVersion =
        (zeroConfiguration.unpackFlags fl).undocumentedWSLVersion) := by
  have hget := getConfiguration_oracle d env v u fl blk m h1 h2 h3
  refine ⟨?_, ?_, ?_, ?_⟩
  · obtain ⟨f, hcfg, hI, hP, hD, hW⟩ := configure_roundtrip d env
      { (({ zeroConfiguration with Version := v, DefaultUID := u } :
          Configuration).unpackFlags fl) with
        DefaultEnvironmentVariables := m, InteropEnabled := value }
      (by simpa [Configuration.unpackFlags] using unpackFlags_version_valid zeroConfiguration fl)
      h1 h4
    refine ⟨f, ?_, ?_, ?_, ?_⟩
    · simpa [Distro.InteropEnabled, hget, Configuration.unpackFlags] using hcfg
    · simpa [Configuration.unpackFlags] using hP
    · simpa [Configuration.unpackFlags] using hD
    · simpa [Configuration.unpackFlags] using hW
  · obtain ⟨f, hcfg, hI, hP, hD, hW⟩ := configure_roundtrip d env
      { (({ zeroConfiguration with Version := v, DefaultUID := u } :
          Configuration).unpackFlags fl) with
        DefaultEnvironmentVariables := m, PathAppended := value }
      (by simpa [Configuration.unpackFlags] using unpackFlags_version_valid zeroConfiguration fl)
      h1 h4
    refine ⟨f, ?_, ?_, ?_, ?_⟩
    · simpa [Distro.PathAppended, hget, Configuration.unpackFlags] using hcfg
    · simpa [Configuration.unpackFlags] using hI
    · simpa [Configuration.unpackFlags] using hD
    · simpa [Configuration.unpackFlags] using hW
  · obtain ⟨f, hcfg, hI, hP, hD, hW⟩ := configure_roundtrip d env
      { (({ zeroConfiguration with Version := v, DefaultUID := u } :
          Configuration).unpackFlags fl) with
        DefaultEnvironmentVariables := m, DriveMountingEnabled := value }
      (by simpa [Configuration.unpackFlags] using unpackFlags_version_valid zeroConfiguration fl)
      h1 h4
    refine ⟨f, ?_, ?_, ?_, ?_⟩
    · simpa [Distro.DriveMountingEnabled, hget, Configuration.unpackFlags] using hcfg
    · simpa [Configuration.unpackFlags] using hI
    · simpa [Configuration.unpackFlags] using hP
    · simpa [Configuration.unpackFlags] using hW
  · obtain ⟨f, hcfg, hI, hP, hD, hW⟩ := configure_roundtrip d env
      { (({ zeroConfiguration with Version := v, DefaultUID := u } :
          Configuration).unpackFlags fl) with
        DefaultEnvironmentVariables := m, DefaultUID := uid }
      (by simpa [Configuration.unpackFlags] using unpackFlags_version_valid zeroConfiguration fl)
      h1 h4
    refine ⟨f, ?_, ?_, ?_, ?_, ?_⟩
    · simpa [Distro.DefaultUID, hget, Configuration.unpackFlags] using hcfg
    · simpa [Configuration.unpackFlags] using hI
    · simpa [Configuration.unpackFlags] using hP
    · simpa [Configuration.unpackFlags] using hD
    · simpa [Configuration.unpackFlags] using hW

/-- Witness for claim C10: with a native get returning version 2,
uid 1000, flags 5 and an empty environment block, setting the interop
flag to `false` issues a configure call with uid 1000 and flags whose
path-append, drive-mount and version bits decode as in the fetched
flags 5. -/
theorem claim_C10_witness :
    ∃ f, (Distro.InteropEnabled ⟨"Ubuntu"⟩ ⟨true, some (2, 1000, 5, []), 0⟩ false).2 =
        some (1000, f) ∧
      (zeroConfiguration.unpackFlags f).PathAppended =
        (zeroConfiguration.unpackFlags 5).PathAppended ∧
      (zeroConfiguration.unpackFlags f).DriveMountingEnabled =
        (zeroConfiguration.unpackFlags 5).DriveMountingEnabled ∧
      (zeroConfiguration.unpackFlags f).undocumentedWSLVersion =
        (zeroConfiguration.unpackFlags 5).undocumentedWSLVersion :=
  (claim_C10_setters_frame ⟨"Ubuntu"⟩ ⟨true, some (2, 1000, 5, []), 0⟩ 2 1000 5 [] []
    false 42 rfl rfl rfl rfl).1

end GoWSL
